import Mathlib

/-!
Shallow embedding of the J-Tech Digital HDMI Matrix Home Assistant
integration's polling coordinator
(`custom_components/jtechdigital/coordinator.py`) and of the alternate
coordinator (`_coordinator.py`), together with theorems settling the
specification claims about them.

Conventions of the embedding:
* Python `None` becomes `Option.none`; vendor status objects are records.
* A Python runtime exception raised while reconciling (`AttributeError`
  from an attribute access on `None`, `IndexError` from list indexing)
  becomes `Except.error` with a `PyErr` value.
* `asyncio.gather(..., return_exceptions=True)` becomes a record of
  per-endpoint `Except` outcomes (`FetchResults`); `_fetch_status`
  converts each to `Option` exactly as the Python comprehension
  `response if not isinstance(response, Exception) else None` does.
* Coordinator instance attributes become the fields of `CoordState`;
  `_async_update_data` becomes a state transformer that also reports the
  exception propagating out of the update, if any.  The framework's
  publication of a successful update's return value as `coordinator.data`
  is modelled by the `data` field, which is replaced exactly when the
  update returns normally.
-/

namespace Jtech

/-- Python runtime errors that the reconciliation code can raise. -/
inductive PyErr where
  | attributeError
  | indexError
  deriving DecidableEq, Repr

/-- Python `xs[i]` on a list with a non-negative index:
value, or `IndexError`. -/
def pyIndex {α : Type} (xs : List α) (i : Nat) : Except PyErr α :=
  match xs.get? i with
  | some v => .ok v
  | none => .error .indexError

/-- Python attribute access on a possibly-`None` object:
`AttributeError` when the object is `None`. -/
def pyAttr {α : Type} (x : Option α) : Except PyErr α :=
  match x with
  | some v => .ok v
  | none => .error .attributeError

/-- Vendor record returned by `client.get_status()`. -/
structure StatusRec where
  power : Bool
  model : String
  version : String
  macaddress : String
  deriving DecidableEq, Repr

/-- Vendor record returned by `client.get_source_status()`. -/
structure SourceStatusRec where
  power : Bool
  source_names : List String
  active_sources : List Bool
  edid_indexes : List Nat
  deriving DecidableEq, Repr

/-- Vendor record returned by `client.get_output_status()`. -/
structure OutputStatusRec where
  power : Bool
  output_names : List String
  output_cat_names : List String
  selected_sources : List Int
  selected_output_scalers : List Nat
  enabled_outputs : List Bool
  enabled_cat_outputs : List Bool
  connected_outputs : List Bool
  connected_cat_outputs : List Bool
  deriving DecidableEq, Repr

/-- Vendor record returned by `client.get_cec_status()`. -/
structure CecStatusRec where
  selected_cec_sources : List Int
  selected_cec_outputs : List Int
  deriving DecidableEq, Repr

/-- Vendor record returned by `client.get_network()`. -/
structure NetworkRec where
  power : Bool
  hostname : String
  ipaddress : String
  subnet : String
  gateway : String
  macaddress : String
  dhcp : Bool
  telnetport : Nat
  tcpport : Nat
  deriving DecidableEq, Repr

/-- Vendor record returned by `client.get_system_status()`. -/
structure SystemStatusRec where
  power : Bool
  baudrate_index : Nat
  beep : Bool
  lock : Bool
  mode : Nat
  version : String
  deriving DecidableEq, Repr

/-- Vendor record returned by `client.get_web_details()`. -/
structure WebDetailsRec where
  title : String
  deriving DecidableEq, Repr

/-- The `structures.JtechOutputInfo` dataclass. -/
structure JtechOutputInfo where
  source : Int
  name : String
  cat_name : String
  connected : Bool
  cat_connected : Bool
  enabled : Bool
  cat_enabled : Bool
  scaler : Nat
  cec_selected : Bool
  deriving DecidableEq, Repr

/-- The `structures.JtechSourceInfo` dataclass. -/
structure JtechSourceInfo where
  outputs : List Nat
  name : String
  active : Bool
  edid_index : Nat
  cec_selected : Bool
  deriving DecidableEq, Repr

/-- The per-endpoint outcomes of the seven concurrent fetches issued by
`_fetch_status` (`asyncio.gather(..., return_exceptions=True)`): each
endpoint independently either returned its record or raised. -/
structure FetchResults where
  status : Except PyErr StatusRec
  source : Except PyErr SourceStatusRec
  output : Except PyErr OutputStatusRec
  cec : Except PyErr CecStatusRec
  network : Except PyErr NetworkRec
  system : Except PyErr SystemStatusRec
  web_details : Except PyErr WebDetailsRec

/-- The `statuses` dict built by `_fetch_status`: exceptions filtered
to `None`, keyed by endpoint. -/
structure Statuses where
  status : Option StatusRec
  source : Option SourceStatusRec
  output : Option OutputStatusRec
  cec : Option CecStatusRec
  network : Option NetworkRec
  system : Option SystemStatusRec
  web_details : Option WebDetailsRec

/-- One gather slot: `response if not isinstance(response, Exception) else None`. -/
def dropExc {α : Type} (r : Except PyErr α) : Option α :=
  match r with
  | .ok v => some v
  | .error _ => none

/-- Embeds `JtechCoordinator._fetch_status`: zip the seven settled responses into
the `statuses` dict, converting each exception to `None`. -/
def fetch_status (fr : FetchResults) : Statuses :=
  { status := dropExc fr.status
    source := dropExc fr.source
    output := dropExc fr.output
    cec := dropExc fr.cec
    network := dropExc fr.network
    system := dropExc fr.system
    web_details := dropExc fr.web_details }

/-- The inner loop of `_handle_source_update`:
`[output_idx + 1 for output_idx, source in enumerate(selected) if source == idx]`,
with `o` the running `enumerate` counter. -/
def invOutputsAux (idx : Nat) : Nat → List Int → List Nat
  | _, [] => []
  | o, s :: rest =>
    if s = (idx : Int) then (o + 1) :: invOutputsAux idx (o + 1) rest
    else invOutputsAux idx (o + 1) rest

/-- Exception propagation of one Python statement: evaluate `x`; a
raised exception propagates, a value feeds the rest of the suite. -/
def tryStep {α β : Type} (x : Except PyErr α)
    (f : α → Except PyErr β) : Except PyErr β :=
  match x with
  | .error e => .error e
  | .ok v => f v

/-- The body of `_handle_source_update`'s `for idx, source_name in
enumerate(source_status.source_names)` loop, with `idx` the running
counter; each iteration indexes the parallel arrays (possible
`IndexError`) and dereferences the possibly-`None` cec and output
statuses (possible `AttributeError`), in the source's order. -/
def sourceRowsAux (ss : SourceStatusRec) (cecOpt : Option CecStatusRec)
    (outOpt : Option OutputStatusRec) :
    Nat → List String → Except PyErr (List JtechSourceInfo)
  | _, [] => .ok []
  | idx, source_name :: rest =>
    tryStep (pyIndex ss.active_sources idx) fun active =>
    tryStep (pyIndex ss.edid_indexes idx) fun edid_index =>
    tryStep (pyAttr cecOpt) fun cec_status =>
    tryStep (pyAttr outOpt) fun output_status =>
    tryStep (sourceRowsAux ss cecOpt outOpt (idx + 1) rest) fun tail =>
      .ok ({ outputs := invOutputsAux idx 0 output_status.selected_sources
             name := source_name
             active := active
             edid_index := edid_index
             cec_selected := cec_status.selected_cec_sources.contains (idx : Int) } :: tail)

/-- Embeds `JtechCoordinator._handle_source_update`: build the source list when
the source status and its name array are present; otherwise fall through
and return `None`. -/
def handle_source_update (st : Statuses) :
    Except PyErr (Option (List JtechSourceInfo)) :=
  match st.source with
  | none => .ok none
  | some source_status =>
    match source_status.source_names with
    | [] => .ok none
    | names@(_ :: _) =>
      match sourceRowsAux source_status st.cec st.output 0 names with
      | .error e => .error e
      | .ok rows => .ok (some rows)

/-- The body of `_handle_output_update`'s `for idx, output_name in
enumerate(output_status.output_names)` loop, indexing the parallel
arrays and dereferencing the possibly-`None` cec status in the source's
order. -/
def outputRowsAux (os : OutputStatusRec) (cecOpt : Option CecStatusRec) :
    Nat → List String → Except PyErr (List JtechOutputInfo)
  | _, [] => .ok []
  | idx, output_name :: rest =>
    tryStep (pyIndex os.selected_sources idx) fun source_idx =>
    tryStep (pyIndex os.output_cat_names idx) fun cat_name =>
    tryStep (pyIndex os.connected_outputs idx) fun connected =>
    tryStep (pyIndex os.connected_cat_outputs idx) fun cat_connected =>
    tryStep (pyIndex os.enabled_outputs idx) fun enabled =>
    tryStep (pyIndex os.enabled_cat_outputs idx) fun cat_enabled =>
    tryStep (pyIndex os.selected_output_scalers idx) fun scaler =>
    tryStep (pyAttr cecOpt) fun cec_status =>
    tryStep (outputRowsAux os cecOpt (idx + 1) rest) fun tail =>
      .ok ({ source := source_idx
             name := output_name
             cat_name := cat_name
             connected := connected
             cat_connected := cat_connected
             enabled := enabled
             cat_enabled := cat_enabled
             scaler := scaler
             cec_selected := cec_status.selected_cec_outputs.contains (idx : Int) } :: tail)

/-- Embeds `JtechCoordinator._handle_output_update`: build the output list when
the output status and its name array are present; otherwise fall through
and return `None`. -/
def handle_output_update (st : Statuses) :
    Except PyErr (Option (List JtechOutputInfo)) :=
  match st.output with
  | none => .ok none
  | some output_status =>
    match output_status.output_names with
    | [] => .ok none
    | names@(_ :: _) =>
      match outputRowsAux output_status st.cec 0 names with
      | .error e => .error e
      | .ok rows => .ok (some rows)

/-- The `combined_data` dict returned by `_async_update_data`, with
`none` standing for an absent key. -/
structure CombinedData where
  power : Option Bool := none
  model : Option String := none
  version : Option String := none
  hostname : Option String := none
  ipaddress : Option String := none
  subnet : Option String := none
  gateway : Option String := none
  macaddress : Option String := none
  dhcp : Option Bool := none
  telnetport : Option Nat := none
  tcpport : Option Nat := none
  baudrate_index : Option Nat := none
  beep : Option Bool := none
  lock : Option Bool := none
  mode : Option Nat := none
  title : Option String := none
  deriving DecidableEq, Repr

/-- The `combined_data = {}` construction of `_async_update_data`:
each group of keys is written only when its owning status is present. -/
def build_combined (st : Statuses) : CombinedData :=
  let cd : CombinedData := {}
  let cd := match st.status with
    | some status =>
      { cd with power := some status.power, model := some status.model,
                version := some status.version }
    | none => cd
  let cd := match st.network with
    | some network_status =>
      { cd with hostname := some network_status.hostname,
                ipaddress := some network_status.ipaddress,
                subnet := some network_status.subnet,
                gateway := some network_status.gateway,
                macaddress := some network_status.macaddress,
                dhcp := some network_status.dhcp,
                telnetport := some network_status.telnetport,
                tcpport := some network_status.tcpport }
    | none => cd
  let cd := match st.system with
    | some system_status =>
      { cd with baudrate_index := some system_status.baudrate_index,
                beep := some system_status.beep,
                lock := some system_status.lock,
                mode := some system_status.mode }
    | none => cd
  match st.web_details with
  | some web_details => { cd with title := some web_details.title }
  | none => cd

/-- The error strings of `const.py`. -/
def ERROR_CONNECT_FAILED : String := "Failed to connect"

/-- String `const.ERROR_FETCH_DATA_FAILED`. -/
def ERROR_FETCH_DATA_FAILED : String := "Failed to fetch data"

/-- String `const.ERROR_AUTH_FAILED`. -/
def ERROR_AUTH_FAILED : String := "Authentication failed"

/-- String `const.ERROR_UNKNOWN`. -/
def ERROR_UNKNOWN : String := "Unknown error occurred"

/-- The exceptions `_client_connect` / `_async_update_data` raise to the
platform: `ConfigEntryAuthFailed` (re-auth required) or `UpdateFailed`
with its message. -/
inductive UpdateError where
  | configEntryAuthFailed (msg : String)
  | updateFailed (msg : String)
  deriving DecidableEq, Repr

/-- Outcome of `client.connect(username, password)` when it is called. -/
inductive ConnectOutcome where
  | success
  | authError
  | connectionError
  | otherError
  deriving DecidableEq, Repr

/-- The mutable attributes of `JtechCoordinator` relevant to a poll
cycle.  `outputs`/`sources` are `Option` because the handlers return
Python `None` when their status is absent (initially they are `some []`);
`data` is the last value published by the framework from a successful
update (`none` before the first success). -/
structure CoordState where
  connected : Bool
  outputs : Option (List JtechOutputInfo)
  sources : Option (List JtechSourceInfo)
  data : Option CombinedData
  deriving DecidableEq, Repr

/-- Values of `JtechCoordinator.__init__`'s coordinator attributes. -/
def initState : CoordState :=
  { connected := false, outputs := some [], sources := some [], data := none }

/-- Embeds `JtechCoordinator._client_connect`: attempt a connect only when not
already connected; map the client outcome to the raised error and the
`connected` flag exactly as the four branches do. -/
def client_connect (st : CoordState) (c : ConnectOutcome) :
    CoordState × Option UpdateError :=
  if st.connected then (st, none)
  else
    match c with
    | .success => ({ st with connected := true }, none)
    | .authError =>
      ({ st with connected := false },
       some (.configEntryAuthFailed ERROR_AUTH_FAILED))
    | .connectionError =>
      ({ st with connected := false },
       some (.updateFailed ERROR_CONNECT_FAILED))
    | .otherError =>
      ({ st with connected := false },
       some (.updateFailed ERROR_UNKNOWN))

/-- Embeds `JtechCoordinator._async_update_data`: ensure the client is connected
(outside the `try`, so connect errors propagate unchanged); fetch the
statuses; assign `self.outputs` then `self.sources`; build the combined
dict and return it (modelled as publishing it into `data`).  A handler
exception is caught by the broad `except Exception`, which flips
`connected` and raises `UpdateFailed(ERROR_FETCH_DATA_FAILED)` — note
`self.outputs` keeps any assignment already made before the exception. -/
def async_update_data (st : CoordState) (c : ConnectOutcome)
    (fr : FetchResults) : CoordState × Option UpdateError :=
  match client_connect st c with
  | (st1, some err) => (st1, some err)
  | (st1, none) =>
    let statuses := fetch_status fr
    match handle_output_update statuses with
    | .error _ =>
      ({ st1 with connected := false },
       some (.updateFailed ERROR_FETCH_DATA_FAILED))
    | .ok outs =>
      let st2 := { st1 with outputs := outs }
      match handle_source_update statuses with
      | .error _ =>
        ({ st2 with connected := false },
         some (.updateFailed ERROR_FETCH_DATA_FAILED))
      | .ok srcs =>
        let st3 := { st2 with sources := srcs }
        ({ st3 with data := some (build_combined statuses) }, none)

/-- One call made on the device client (or a refresh request on the
coordinator), used to trace what a command method does. -/
inductive ClientCall where
  | set_output_stream (output : Nat) (enabled : Bool)
  | set_output_cat_stream (output : Nat) (enabled : Bool)
  | set_video_source (output : Nat) (source : Nat)
  | send_cec_output (output : Nat) (command : Nat)
  | send_cec_source (source : Nat) (command : Nat)
  | set_power (power : Bool)
  | request_refresh
  deriving DecidableEq, Repr

/-- The device client's command surface: the success boolean each call
returns, as a function of its arguments. -/
structure JtechClient where
  set_output_stream : Nat → Bool → Bool
  set_output_cat_stream : Nat → Bool → Bool
  set_video_source : Nat → Nat → Bool
  send_cec_output : Nat → Nat → Bool
  send_cec_source : Nat → Nat → Bool
  set_power : Bool → Bool

/-- Embeds `JtechCoordinator.async_enable_output`: the trace of client calls it
makes and the boolean it returns. -/
def async_enable_output (cl : JtechClient) (output : Nat) :
    List ClientCall × Bool :=
  ([.set_output_stream output true], cl.set_output_stream output true)

/-- Embeds `JtechCoordinator.async_enable_cat_output`. -/
def async_enable_cat_output (cl : JtechClient) (output : Nat) :
    List ClientCall × Bool :=
  ([.set_output_cat_stream output true], cl.set_output_cat_stream output true)

/-- Embeds `JtechCoordinator.async_disable_output`. -/
def async_disable_output (cl : JtechClient) (output : Nat) :
    List ClientCall × Bool :=
  ([.set_output_stream output false], cl.set_output_stream output false)

/-- Embeds `JtechCoordinator.async_disable_cat_output`. -/
def async_disable_cat_output (cl : JtechClient) (output : Nat) :
    List ClientCall × Bool :=
  ([.set_output_cat_stream output false], cl.set_output_cat_stream output false)

/-- Embeds `JtechCoordinator.async_select_source`. -/
def async_select_source (cl : JtechClient) (output source : Nat) :
    List ClientCall × Bool :=
  ([.set_video_source output source], cl.set_video_source output source)

/-- Embeds `JtechCoordinator.async_send_cec_output`. -/
def async_send_cec_output (cl : JtechClient) (output command : Nat) :
    List ClientCall × Bool :=
  ([.send_cec_output output command], cl.send_cec_output output command)

/-- Embeds `JtechCoordinator.async_send_cec_source`. -/
def async_send_cec_source (cl : JtechClient) (source command : Nat) :
    List ClientCall × Bool :=
  ([.send_cec_source source command], cl.send_cec_source source command)

/-- Embeds `JtechCoordinator.async_power_on`. -/
def async_power_on (cl : JtechClient) : List ClientCall × Bool :=
  ([.set_power true], cl.set_power true)

/-- Embeds `JtechCoordinator.async_power_off`. -/
def async_power_off (cl : JtechClient) : List ClientCall × Bool :=
  ([.set_power false], cl.set_power false)

end Jtech

namespace JtechAlt

open Jtech (StatusRec SourceStatusRec OutputStatusRec SystemStatusRec)

/-!
Embedding of the alternate coordinator `_coordinator.py`
(`JtechCoordinator._async_update_data` there and the update helpers it
calls).  Its update is one big `try` whose handlers are
`except (JtechConnectionError, JtechConnectionTimeout)` — set
`power = False`, `connected = False`, log, and return normally — and
`except err:`, which evaluates the unbound name `err` and therefore
raises `NameError` while handling any other exception.
-/

/-- Typed errors of the vendor client library (plus a stand-in for any
other exception). -/
inductive JtechErr where
  | authError
  | connectionError
  | connectionTimeout
  | otherError
  deriving DecidableEq, Repr

/-- What can propagate out of the alternate `_async_update_data`:
nothing, or the `NameError` produced by the `except err:` clause while
it was handling a non-connection exception. -/
inductive AltRaise where
  | nameError
  deriving DecidableEq, Repr

/-- Vendor record returned by `client.get_video_status()`. -/
structure VideoStatusRec where
  power : Bool
  selected_sources : List Int
  preset_names : List String
  source_names : List String
  output_names : List String
  output_cat_names : List String
  deriving DecidableEq, Repr

/-- The alternate coordinator's instance attributes touched by its
update path. -/
structure AltState where
  connected : Bool
  power : Option Bool
  model : Option String
  mac : Option String
  version : Option String
  baudrate_index : Option Nat
  beep : Option Bool
  lock : Option Bool
  mode : Option Nat
  sources_count : Nat
  outputs_count : Nat
  sources_names : List String
  sources_active : List Bool
  sources_edids : List Nat
  outputs_names : List String
  outputs_cat_names : List String
  outputs_connected : List Bool
  outputs_cat_connected : List Bool
  outputs_enabled : List Bool
  outputs_cat_enabled : List Bool
  outputs_sources : List Int
  outputs_scalers : List Nat
  preset_names : List String
  deriving DecidableEq, Repr

/-- Inputs to one alternate-coordinator update: the outcome of
`client.connect` (`none` = success), the client's source/output counts,
and the outcome of each status fetch the update path performs. -/
structure AltFetches where
  connect : Option JtechErr
  client_sources_count : Nat
  client_outputs_count : Nat
  status : Except JtechErr StatusRec
  video : Except JtechErr VideoStatusRec
  source : Except JtechErr SourceStatusRec
  output : Except JtechErr OutputStatusRec
  system : Except JtechErr SystemStatusRec

/-- The outer `except` clauses of the alternate `_async_update_data`:
connection errors and timeouts mark the device off and return normally;
any other exception reaches `except err:` whose evaluation raises
`NameError` (the handler body never runs, so the state is unchanged). -/
def altCatch (e : JtechErr) (s : AltState) : AltState × Option AltRaise :=
  match e with
  | .connectionError => ({ s with power := some false, connected := false }, none)
  | .connectionTimeout => ({ s with power := some false, connected := false }, none)
  | _ => (s, some .nameError)

/-- Embeds `async_update_status` of `_coordinator.py` (pure part, given the
fetched record): `power` unconditionally; `model`, `mac`, `version`
only when the fetched string is truthy (non-empty). -/
def alt_update_status (s : AltState) (r : StatusRec) : AltState :=
  let s := { s with power := some r.power }
  let s := if r.model ≠ "" then { s with model := some r.model } else s
  let s := if r.macaddress ≠ "" then { s with mac := some r.macaddress } else s
  if r.version ≠ "" then { s with version := some r.version } else s

/-- Embeds `async_update_video_status` (pure part).  Note the source assigns
`self.preset_names` (not the `presets_names` attribute created in
`__init__`). -/
def alt_update_video (s : AltState) (r : VideoStatusRec) : AltState :=
  let s := { s with power := some r.power,
                    outputs_sources := r.selected_sources,
                    preset_names := r.preset_names }
  let s := if r.source_names ≠ [] then { s with sources_names := r.source_names } else s
  let s := if r.output_names ≠ [] then { s with outputs_names := r.output_names } else s
  if r.output_cat_names ≠ [] then { s with outputs_cat_names := r.output_cat_names } else s

/-- Embeds `async_update_source_status` (pure part). -/
def alt_update_source (s : AltState) (r : SourceStatusRec) : AltState :=
  let s := { s with power := some r.power,
                    sources_edids := r.edid_indexes,
                    sources_active := r.active_sources }
  if r.source_names ≠ [] then { s with sources_names := r.source_names } else s

/-- Embeds `async_update_output_status` (pure part). -/
def alt_update_output (s : AltState) (r : OutputStatusRec) : AltState :=
  let s := { s with power := some r.power,
                    outputs_sources := r.selected_sources,
                    outputs_scalers := r.selected_output_scalers,
                    outputs_enabled := r.enabled_outputs,
                    outputs_cat_enabled := r.enabled_cat_outputs,
                    outputs_connected := r.connected_outputs,
                    outputs_cat_connected := r.connected_cat_outputs }
  let s := if r.output_names ≠ [] then { s with outputs_names := r.output_names } else s
  if r.output_cat_names ≠ [] then { s with outputs_cat_names := r.output_cat_names } else s

/-- Embeds `async_update_system_status` (pure part). -/
def alt_update_system (s : AltState) (r : SystemStatusRec) : AltState :=
  let s := { s with power := some r.power,
                    baudrate_index := some r.baudrate_index,
                    beep := some r.beep,
                    lock := some r.lock,
                    mode := some r.mode }
  if r.version ≠ "" then { s with version := some r.version } else s

/-- Run one `await self.async_update_xxx()` line of the alternate
update: on a fetch error the exception escapes to the outer `except`
clauses, otherwise apply the pure field assignments and continue. -/
def altRun {ρ : Type} (s : AltState) (r : Except JtechErr ρ)
    (upd : AltState → ρ → AltState)
    (k : AltState → AltState × Option AltRaise) :
    AltState × Option AltRaise :=
  match r with
  | .error e => altCatch e s
  | .ok v => k (upd s v)

/-- Embeds `_coordinator.py`'s `JtechCoordinator._async_update_data`: connect
when not connected (auth failure raises `ConfigEntryAuthFailed`, which
no outer clause matches, so `except err:` turns it into `NameError`;
connection errors are caught by the outer clause), read the client's
counts, run the initial status update, then the video, source, output
and system updates in order. -/
def alt_async_update_data (st : AltState) (f : AltFetches) :
    AltState × Option AltRaise :=
  let rest : AltState → AltState × Option AltRaise := fun s0 =>
    altRun s0 f.video alt_update_video fun s1 =>
    altRun s1 f.source alt_update_source fun s2 =>
    altRun s2 f.output alt_update_output fun s3 =>
    altRun s3 f.system alt_update_system fun s4 => (s4, none)
  if st.connected then rest st
  else
    match f.connect with
    | some .authError => (st, some .nameError)
    | some .connectionError =>
      ({ st with power := some false, connected := false }, none)
    | some .connectionTimeout =>
      ({ st with power := some false, connected := false }, none)
    | some .otherError => (st, some .nameError)
    | none =>
      let s := { st with connected := true,
                         sources_count := f.client_sources_count,
                         outputs_count := f.client_outputs_count }
      altRun s f.status alt_update_status rest

end JtechAlt

namespace Jtech

/-! Concrete inputs used for the spec's worked scenario and for
witnesses. -/

/-- The spec scenario's output status: names `["TV1","TV2"]`,
`selected_sources = [1, 0]`. -/
def scenarioOutputStatus : OutputStatusRec :=
  { power := true
    output_names := ["TV1", "TV2"]
    output_cat_names := ["TV1 CAT", "TV2 CAT"]
    selected_sources := [1, 0]
    selected_output_scalers := [0, 0]
    enabled_outputs := [true, true]
    enabled_cat_outputs := [true, false]
    connected_outputs := [true, true]
    connected_cat_outputs := [false, true] }

/-- The spec scenario's source status: names `["Blu-ray","Game"]`. -/
def scenarioSourceStatus : SourceStatusRec :=
  { power := true
    source_names := ["Blu-ray", "Game"]
    active_sources := [true, false]
    edid_indexes := [0, 1] }

/-- The spec scenario's CEC status: selected outputs `{0}`. -/
def scenarioCecStatus : CecStatusRec :=
  { selected_cec_sources := []
    selected_cec_outputs := [0] }

/-- A device-status record for the scenario. -/
def scenarioStatusRec : StatusRec :=
  { power := true, model := "HDMI-MATRIX", version := "1.0", macaddress := "aa:bb" }

/-- A network record for the scenario. -/
def scenarioNetworkRec : NetworkRec :=
  { power := true, hostname := "matrix", ipaddress := "10.0.0.2",
    subnet := "255.255.255.0", gateway := "10.0.0.1", macaddress := "aa:bb",
    dhcp := true, telnetport := 23, tcpport := 8000 }

/-- A system record for the scenario. -/
def scenarioSystemRec : SystemStatusRec :=
  { power := true, baudrate_index := 6, beep := false, lock := false,
    mode := 0, version := "1.0" }

/-- A web-details record for the scenario. -/
def scenarioWebRec : WebDetailsRec := { title := "Matrix Control" }

/-- The spec scenario's fetch results: every endpoint succeeds. -/
def scenarioFetch : FetchResults :=
  { status := .ok scenarioStatusRec
    source := .ok scenarioSourceStatus
    output := .ok scenarioOutputStatus
    cec := .ok scenarioCecStatus
    network := .ok scenarioNetworkRec
    system := .ok scenarioSystemRec
    web_details := .ok scenarioWebRec }

/-- The `statuses` dict for the spec scenario. -/
def scenarioStatuses : Statuses := fetch_status scenarioFetch

/-- Extract the row list from a handler result (empty on `None` or
exception); used only to state concrete facts about computed cycles. -/
def sourceRowsOf (r : Except PyErr (Option (List JtechSourceInfo))) :
    List JtechSourceInfo :=
  match r with
  | .ok (some l) => l
  | _ => []

/-- Same extraction for output rows. -/
def outputRowsOf (r : Except PyErr (Option (List JtechOutputInfo))) :
    List JtechOutputInfo :=
  match r with
  | .ok (some l) => l
  | _ => []

/-- The output list the code produces for the spec scenario. -/
def scenarioOutputs : List JtechOutputInfo :=
  outputRowsOf (handle_output_update scenarioStatuses)

/-- The source list the code produces for the spec scenario. -/
def scenarioSources : List JtechSourceInfo :=
  sourceRowsOf (handle_source_update scenarioStatuses)

/-- The 0-based inverse mapping over a produced output list:
positions `o` (counting from `o0`) with `outs[o].source = s`.  This is a
specification-side definition used to compare the code's derived
`SourceInfo.outputs` against the spec's round-trip property. -/
def inv0Aux (s : Nat) : Nat → List JtechOutputInfo → List Nat
  | _, [] => []
  | o, x :: rest =>
    if x.source = (s : Int) then o :: inv0Aux s (o + 1) rest
    else inv0Aux s (o + 1) rest

/-- Definition `inv0 outs s` = the 0-based output positions whose `source` field
equals `s` (the spec's `{o : outputs[o].source == s}` read with one
0-based convention). -/
def inv0 (outs : List JtechOutputInfo) (s : Nat) : List Nat :=
  inv0Aux s 0 outs

/-- Definition `inv1 outs s` = the 1-based output positions whose `source` field
equals `s` (the spec's round trip read with one 1-based convention:
source number `s` lives at array position `s - 1`, outputs are numbered
from 1). -/
def inv1 (outs : List JtechOutputInfo) (s : Nat) : List Nat :=
  (inv0 outs s).map (· + 1)

/-- Fetch results in which only the output-status fetch raised. -/
def outputFailFetch (e : PyErr) (s0 : StatusRec) (ss : SourceStatusRec)
    (cs : CecStatusRec) (nw : NetworkRec) (sys : SystemStatusRec)
    (wd : WebDetailsRec) : FetchResults :=
  { status := .ok s0, source := .ok ss, output := .error e, cec := .ok cs,
    network := .ok nw, system := .ok sys, web_details := .ok wd }

/-- A concrete tick where the output-status fetch raised and every other
fetch succeeded with the scenario records. -/
def failFetch : FetchResults :=
  outputFailFetch .indexError scenarioStatusRec scenarioSourceStatus
    scenarioCecStatus scenarioNetworkRec scenarioSystemRec scenarioWebRec

/-- A concrete output row, standing for data published by an earlier
successful cycle. -/
def prevOutputInfo : JtechOutputInfo :=
  { source := 1, name := "TV1", cat_name := "TV1 CAT", connected := true,
    cat_connected := true, enabled := true, cat_enabled := true,
    scaler := 0, cec_selected := false }

/-- A concrete source row from an earlier successful cycle. -/
def prevSourceInfo : JtechSourceInfo :=
  { outputs := [1], name := "Blu-ray", active := true, edid_index := 0,
    cec_selected := false }

/-- Coordinator state after an earlier successful cycle, used as the
previous-value baseline in the error-handling counterexamples. -/
def prevState : CoordState :=
  { connected := true, outputs := some [prevOutputInfo],
    sources := some [prevSourceInfo],
    data := some (build_combined scenarioStatuses) }

/-- The first poll cycle from the freshly initialized coordinator with
every fetch succeeding. -/
def cycle1 : CoordState × Option UpdateError :=
  async_update_data initState .success scenarioFetch

/-- Fetch results in which only the network fetch raised. -/
def netFailFetch : FetchResults :=
  { scenarioFetch with network := .error .indexError }

/-- The second poll cycle: same device data but the network fetch
raised. -/
def cycle2 : CoordState × Option UpdateError :=
  async_update_data cycle1.1 .success netFailFetch

/-- A variant of the scenario output status whose routed-source values
are valid 1-based source numbers. -/
def scenario2OutputStatus : OutputStatusRec :=
  { scenarioOutputStatus with selected_sources := [2, 1] }

/-- Fetch results for the valid-1-based variant. -/
def scenario2Fetch : FetchResults :=
  { scenarioFetch with output := .ok scenario2OutputStatus }

/-- The `statuses` dict for the valid-1-based variant. -/
def scenario2Statuses : Statuses := fetch_status scenario2Fetch

/-- The output list produced for the valid-1-based variant. -/
def scenario2Outputs : List JtechOutputInfo :=
  outputRowsOf (handle_output_update scenario2Statuses)

/-- The source list produced for the valid-1-based variant. -/
def scenario2Sources : List JtechSourceInfo :=
  sourceRowsOf (handle_source_update scenario2Statuses)

end Jtech

namespace JtechAlt


/-- The alternate coordinator's `__init__` attribute values (the
client's counts, read only after a successful connect, start at 0
here). -/
def altInitState : AltState :=
  { connected := false, power := none, model := none, mac := none,
    version := none, baudrate_index := none, beep := none, lock := none,
    mode := none, sources_count := 0, outputs_count := 0,
    sources_names := [], sources_active := [], sources_edids := [],
    outputs_names := [], outputs_cat_names := [], outputs_connected := [],
    outputs_cat_connected := [], outputs_enabled := [],
    outputs_cat_enabled := [], outputs_sources := [], outputs_scalers := [],
    preset_names := [] }

/-- An update tick in which `connect` raises `JtechConnectionError` and
every fetch would also fail. -/
def altConnFailFetches : AltFetches :=
  { connect := some .connectionError
    client_sources_count := 0
    client_outputs_count := 0
    status := .error .connectionError
    video := .error .connectionError
    source := .error .connectionError
    output := .error .connectionError
    system := .error .connectionError }

end JtechAlt

namespace Jtech

/-- If the output handler raises, the update flips `connected` and
raises `UpdateFailed(ERROR_FETCH_DATA_FAILED)` with nothing else
changed. -/
theorem async_update_data_outputFail (st : CoordState) (fr : FetchResults)
    (e : PyErr)
    (ho : handle_output_update (fetch_status fr) = .error e) :
    async_update_data st .success fr =
      ({ st with connected := false },
       some (.updateFailed ERROR_FETCH_DATA_FAILED)) := by
  cases hcon : st.connected <;>
    simp [async_update_data, client_connect, hcon, ho]

/-- If the output handler returns `v` but the source handler raises,
the update has already stored `v` into `outputs` when it flips
`connected` and raises `UpdateFailed(ERROR_FETCH_DATA_FAILED)`;
`sources` and the published `data` are untouched. -/
theorem async_update_data_sourceFail (st : CoordState) (fr : FetchResults)
    (v : Option (List JtechOutputInfo)) (e : PyErr)
    (ho : handle_output_update (fetch_status fr) = .ok v)
    (hs : handle_source_update (fetch_status fr) = .error e) :
    async_update_data st .success fr =
      ({ st with outputs := v, connected := false },
       some (.updateFailed ERROR_FETCH_DATA_FAILED)) := by
  cases hcon : st.connected <;>
    simp [async_update_data, client_connect, hcon, ho, hs]

/-- If both handlers return, the update stores both results, publishes
the freshly built combined record, and raises nothing. -/
theorem async_update_data_ok (st : CoordState) (fr : FetchResults)
    (v : Option (List JtechOutputInfo)) (w : Option (List JtechSourceInfo))
    (ho : handle_output_update (fetch_status fr) = .ok v)
    (hs : handle_source_update (fetch_status fr) = .ok w) :
    async_update_data st .success fr =
      ({ st with connected := true, outputs := v, sources := w,
                 data := some (build_combined (fetch_status fr)) },
       none) := by
  cases hcon : st.connected <;>
    simp [async_update_data, client_connect, hcon, ho, hs]

/-- A connect failure propagates unchanged out of the update. -/
theorem async_update_data_connectFail (st st1 : CoordState)
    (c : ConnectOutcome) (fr : FetchResults) (err : UpdateError)
    (hcc : client_connect st c = (st1, some err)) :
    async_update_data st c fr = (st1, some err) := by
  simp [async_update_data, hcc]

/-- General form of the all-ok shape, for any connect outcome that
succeeded. -/
theorem async_update_data_ok' (st st1 : CoordState) (c : ConnectOutcome)
    (fr : FetchResults)
    (v : Option (List JtechOutputInfo)) (w : Option (List JtechSourceInfo))
    (hcc : client_connect st c = (st1, none))
    (ho : handle_output_update (fetch_status fr) = .ok v)
    (hs : handle_source_update (fetch_status fr) = .ok w) :
    async_update_data st c fr =
      ({ st1 with outputs := v, sources := w,
                  data := some (build_combined (fetch_status fr)) },
       none) := by
  simp [async_update_data, hcc, ho, hs]

/-- General form of the output-handler-failure shape. -/
theorem async_update_data_outputFail' (st st1 : CoordState)
    (c : ConnectOutcome) (fr : FetchResults) (e : PyErr)
    (hcc : client_connect st c = (st1, none))
    (ho : handle_output_update (fetch_status fr) = .error e) :
    async_update_data st c fr =
      ({ st1 with connected := false },
       some (.updateFailed ERROR_FETCH_DATA_FAILED)) := by
  simp [async_update_data, hcc, ho]

/-- General form of the source-handler-failure shape. -/
theorem async_update_data_sourceFail' (st st1 : CoordState)
    (c : ConnectOutcome) (fr : FetchResults)
    (v : Option (List JtechOutputInfo)) (e : PyErr)
    (hcc : client_connect st c = (st1, none))
    (ho : handle_output_update (fetch_status fr) = .ok v)
    (hs : handle_source_update (fetch_status fr) = .error e) :
    async_update_data st c fr =
      ({ st1 with outputs := v, connected := false },
       some (.updateFailed ERROR_FETCH_DATA_FAILED)) := by
  simp [async_update_data, hcc, ho, hs]

/-- Any cycle that raises nothing publishes exactly the combined record
built from this cycle's fetches. -/
theorem async_update_data_data_of_ok (st : CoordState) (c : ConnectOutcome)
    (fr : FetchResults)
    (h : (async_update_data st c fr).2 = none) :
    (async_update_data st c fr).1.data =
      some (build_combined (fetch_status fr)) := by
  rcases hcc : client_connect st c with ⟨st1, e⟩
  cases e with
  | some err =>
    rw [async_update_data_connectFail st st1 c fr err hcc] at h
    simp at h
  | none =>
    cases ho : handle_output_update (fetch_status fr) with
    | error e2 =>
      rw [async_update_data_outputFail' st st1 c fr e2 hcc ho] at h
      simp at h
    | ok v =>
      cases hs : handle_source_update (fetch_status fr) with
      | error e2 =>
        rw [async_update_data_sourceFail' st st1 c fr v e2 hcc ho hs] at h
        simp at h
      | ok w =>
        rw [async_update_data_ok' st st1 c fr v w hcc ho hs]

/-- A raised step propagates through `tryStep`. -/
theorem tryStep_error_of {α β : Type} (x : Except PyErr α)
    (f : α → Except PyErr β) (e : PyErr) (h : x = .error e) :
    tryStep x f = .error e := by
  rw [h]; rfl

/-- A successful step feeds its value through `tryStep`. -/
theorem tryStep_ok_of {α β : Type} (x : Except PyErr α)
    (f : α → Except PyErr β) (a : α) (h : x = .ok a) :
    tryStep x f = f a := by
  rw [h]; rfl

/-- Inversion: a successful `tryStep` had a successful step. -/
theorem tryStep_ok_inv {α β : Type} (x : Except PyErr α)
    (f : α → Except PyErr β) (b : β) (h : tryStep x f = .ok b) :
    ∃ a, x = .ok a ∧ f a = .ok b := by
  cases x with
  | error e => exact Except.noConfusion h
  | ok a => exact ⟨a, rfl, h⟩

/-- When the output status is absent, a source-row loop over a
non-empty name list raises (at latest at the
`output_status.selected_sources` dereference of its first iteration). -/
theorem sourceRowsAux_noOutput (ss : SourceStatusRec)
    (cecOpt : Option CecStatusRec) (idx : Nat) (n : String)
    (rest : List String) :
    ∃ e, sourceRowsAux ss cecOpt none idx (n :: rest) = .error e := by
  simp only [sourceRowsAux]
  cases h1 : pyIndex ss.active_sources idx with
  | error e => exact ⟨e, rfl⟩
  | ok active =>
    simp only [tryStep]
    cases h2 : pyIndex ss.edid_indexes idx with
    | error e => exact ⟨e, rfl⟩
    | ok edid =>
      simp only [tryStep]
      cases h3 : pyAttr cecOpt with
      | error e => exact ⟨e, rfl⟩
      | ok cec =>
        simp only [tryStep]
        exact ⟨.attributeError, rfl⟩

/-- The handler `_handle_source_update` raises whenever the source names are
non-empty but the output status is absent. -/
theorem handle_source_update_noOutput (st : Statuses)
    (ss : SourceStatusRec) (hs : st.source = some ss)
    (ho : st.output = none) (n : String) (rest : List String)
    (hn : ss.source_names = n :: rest) :
    ∃ e, handle_source_update st = .error e := by
  obtain ⟨e, he⟩ := sourceRowsAux_noOutput ss st.cec 0 n rest
  rw [← ho] at he
  simp only [handle_source_update, hs, hn, he]
  exact ⟨e, rfl⟩

/-- C1 (amended): when only the output-status fetch raises, the fetch
step records `None` for the output endpoint alone; the cycle then
overwrites `outputs` with `None` (not its previous value) and — the
fetched source names being non-empty — the source reconciliation
dereferences the absent output status, so the cycle raises
`UpdateFailed(ERROR_FETCH_DATA_FAILED)` and flips `connected`, leaving
`sources` and the published record unchanged. -/
theorem claim_C1 (st : CoordState) (e : PyErr) (s0 : StatusRec)
    (ss : SourceStatusRec) (cs : CecStatusRec) (nw : NetworkRec)
    (sys : SystemStatusRec) (wd : WebDetailsRec)
    (n : String) (rest : List String) (hn : ss.source_names = n :: rest) :
    (fetch_status (outputFailFetch e s0 ss cs nw sys wd)).output = none ∧
    (fetch_status (outputFailFetch e s0 ss cs nw sys wd)).status = some s0 ∧
    (fetch_status (outputFailFetch e s0 ss cs nw sys wd)).source = some ss ∧
    (fetch_status (outputFailFetch e s0 ss cs nw sys wd)).cec = some cs ∧
    (fetch_status (outputFailFetch e s0 ss cs nw sys wd)).network = some nw ∧
    (fetch_status (outputFailFetch e s0 ss cs nw sys wd)).system = some sys ∧
    (fetch_status (outputFailFetch e s0 ss cs nw sys wd)).web_details
      = some wd ∧
    async_update_data st .success (outputFailFetch e s0 ss cs nw sys wd) =
      ({ st with outputs := none, connected := false },
       some (.updateFailed ERROR_FETCH_DATA_FAILED)) := by
  refine ⟨rfl, rfl, rfl, rfl, rfl, rfl, rfl, ?_⟩
  obtain ⟨e2, he2⟩ :=
    handle_source_update_noOutput
      (fetch_status (outputFailFetch e s0 ss cs nw sys wd)) ss rfl rfl n rest hn
  exact async_update_data_sourceFail st _ none e2 rfl he2

/-- C1 witness: the amended behaviour evaluated on the concrete
previous state and the concrete output-fetch failure. -/
theorem claim_C1_witness :
    async_update_data prevState .success failFetch =
      ({ prevState with outputs := none, connected := false },
       some (.updateFailed ERROR_FETCH_DATA_FAILED)) :=
  (claim_C1 prevState .indexError scenarioStatusRec scenarioSourceStatus
    scenarioCecStatus scenarioNetworkRec scenarioSystemRec scenarioWebRec
    "Blu-ray" ["Game"] rfl).2.2.2.2.2.2.2

/-- C1 counterexample: with previously published outputs
`[prevOutputInfo]` and a tick where only the output fetch raised (all
other endpoints succeed, source names non-empty), the cycle raises
`UpdateFailed` and `outputs` ends as `None`, not its previous value. -/
theorem claim_C1_counterexample :
    (async_update_data prevState .success failFetch).2 =
      some (.updateFailed ERROR_FETCH_DATA_FAILED) ∧
    (async_update_data prevState .success failFetch).1.outputs = none ∧
    prevState.outputs = some [prevOutputInfo] ∧
    ¬ ((async_update_data prevState .success failFetch).1.outputs =
        prevState.outputs) := by
  decide

/-- C2 counterexample: on the spec's own scenario the code yields
`sources[0].outputs = [2]` and `sources[1].outputs = [1]` (the loop
appends `output_idx + 1`), not `[1]` and `[0]` as the claim states. -/
theorem claim_C2_counterexample :
    scenarioSources.map JtechSourceInfo.outputs = [[2], [1]] ∧
    ¬ (scenarioSources.map JtechSourceInfo.outputs = [[1], [0]]) := by
  decide

/-- C2 (amended): in the spec scenario, `outputs[0]` has name `"TV1"`,
source `1`, `cec_selected = true`; `outputs[1]` has name `"TV2"`,
source `0`, `cec_selected = false`; and `sources[0].outputs = [2]`,
`sources[1].outputs = [1]` (the 1-based positions of the outputs whose
0-based routed-source value equals the source's 0-based position). -/
theorem claim_C2 :
    scenarioOutputs.map (fun o => (o.name, o.source, o.cec_selected)) =
      [("TV1", 1, true), ("TV2", 0, false)] ∧
    scenarioSources.map JtechSourceInfo.outputs = [[2], [1]] := by
  decide

/-- Lemma: `pyIndex` succeeds exactly on an in-range index. -/
theorem pyIndex_ok {α : Type} (xs : List α) (i : Nat) (v : α) :
    pyIndex xs i = .ok v ↔ xs.get? i = some v := by
  unfold pyIndex
  cases h : xs.get? i <;> simp

/-- Lemma: `pyAttr` succeeds exactly on a present object. -/
theorem pyAttr_ok {α : Type} (x : Option α) (v : α) :
    pyAttr x = .ok v ↔ x = some v := by
  unfold pyAttr
  cases x <;> simp

/-- A list with a value at position `i` decomposes there. -/
theorem drop_cons_of_get? {α : Type} (xs : List α) (i : Nat) (v : α)
    (h : xs.get? i = some v) : xs.drop i = v :: xs.drop (i + 1) := by
  induction xs generalizing i with
  | nil => simp at h
  | cons x rest ih =>
    cases i with
    | zero => simp_all
    | succ j =>
      simp only [List.get?_cons_succ] at h
      simpa using ih j h

/-- A successful output-row loop copies the `selected_sources` window
starting at its index, verbatim, into the rows' `source` fields. -/
theorem outputRowsAux_ok (os : OutputStatusRec)
    (cecOpt : Option CecStatusRec) :
    ∀ (names : List String) (idx : Nat) (l : List JtechOutputInfo),
      outputRowsAux os cecOpt idx names = .ok l →
      l.map JtechOutputInfo.source =
        (os.selected_sources.drop idx).take names.length := by
  intro names
  induction names with
  | nil =>
    intro idx l h
    simp only [outputRowsAux] at h
    cases h
    simp
  | cons n rest ih =>
    intro idx l h
    simp only [outputRowsAux] at h
    obtain ⟨src, h1, h⟩ := tryStep_ok_inv _ _ _ h
    obtain ⟨cat, h2, h⟩ := tryStep_ok_inv _ _ _ h
    obtain ⟨conn, h3, h⟩ := tryStep_ok_inv _ _ _ h
    obtain ⟨catc, h4, h⟩ := tryStep_ok_inv _ _ _ h
    obtain ⟨en, h5, h⟩ := tryStep_ok_inv _ _ _ h
    obtain ⟨caten, h6, h⟩ := tryStep_ok_inv _ _ _ h
    obtain ⟨sc, h7, h⟩ := tryStep_ok_inv _ _ _ h
    obtain ⟨cec, h8, h⟩ := tryStep_ok_inv _ _ _ h
    obtain ⟨tail, h9, h⟩ := tryStep_ok_inv _ _ _ h
    cases h
    have hdrop :=
      drop_cons_of_get? os.selected_sources idx src ((pyIndex_ok _ _ _).mp h1)
    simp only [List.map_cons, List.length_cons, hdrop, List.take_succ_cons]
    exact congrArg (src :: ·) (ih (idx + 1) tail h9)

/-- A successful source-row loop has one row per name; row `j` derives
its `outputs` by the `+1`-shifted inverse scan of the present output
status's `selected_sources` at source index `idx + j`. -/
theorem sourceRowsAux_ok (ss : SourceStatusRec)
    (cecOpt : Option CecStatusRec) (outOpt : Option OutputStatusRec) :
    ∀ (names : List String) (idx : Nat) (l : List JtechSourceInfo),
      sourceRowsAux ss cecOpt outOpt idx names = .ok l →
      l.length = names.length ∧
      ∀ j src, l.get? j = some src →
        ∃ os', outOpt = some os' ∧
          src.outputs = invOutputsAux (idx + j) 0 os'.selected_sources := by
  intro names
  induction names with
  | nil =>
    intro idx l h
    simp only [sourceRowsAux] at h
    cases h
    simp
  | cons n rest ih =>
    intro idx l h
    simp only [sourceRowsAux] at h
    obtain ⟨active, h1, h⟩ := tryStep_ok_inv _ _ _ h
    obtain ⟨edid, h2, h⟩ := tryStep_ok_inv _ _ _ h
    obtain ⟨cec, h3, h⟩ := tryStep_ok_inv _ _ _ h
    obtain ⟨os', h4, h⟩ := tryStep_ok_inv _ _ _ h
    obtain ⟨tail, h5, h⟩ := tryStep_ok_inv _ _ _ h
    cases h
    obtain ⟨ihl, ihj⟩ := ih (idx + 1) tail h5
    refine ⟨by simpa using ihl, ?_⟩
    intro j src hj
    cases j with
    | zero =>
      simp only [List.get?_cons_zero, Option.some.injEq] at hj
      subst hj
      exact ⟨os', (pyAttr_ok _ _).mp h4, by simp⟩
    | succ j' =>
      simp only [List.get?_cons_succ] at hj
      obtain ⟨os'', ho'', houts⟩ := ihj j' src hj
      refine ⟨os'', ho'', ?_⟩
      have harith : idx + 1 + j' = idx + (j' + 1) := by omega
      rw [← harith]
      exact houts

/-- Every element of the inverse scan is strictly above the running
counter and at most counter plus remaining length. -/
theorem invOutputsAux_mem_bounds (idx : Nat) :
    ∀ (sel : List Int) (o x : Nat), x ∈ invOutputsAux idx o sel →
      o < x ∧ x ≤ o + sel.length := by
  intro sel
  induction sel with
  | nil => intro o x h; simp [invOutputsAux] at h
  | cons s rest ih =>
    intro o x h
    simp only [invOutputsAux] at h
    by_cases hs : s = (idx : Int)
    · rw [if_pos hs] at h
      simp only [List.length_cons]
      rcases List.mem_cons.mp h with h | h
      · omega
      · have := ih (o + 1) x h
        omega
    · rw [if_neg hs] at h
      have := ih (o + 1) x h
      simp only [List.length_cons]
      omega

/-- The inverse scan is strictly increasing. -/
theorem invOutputsAux_pairwise (idx : Nat) :
    ∀ (sel : List Int) (o : Nat),
      (invOutputsAux idx o sel).Pairwise (· < ·) := by
  intro sel
  induction sel with
  | nil => intro o; simp [invOutputsAux]
  | cons s rest ih =>
    intro o
    simp only [invOutputsAux]
    by_cases hs : s = (idx : Int)
    · rw [if_pos hs]
      refine List.Pairwise.cons ?_ (ih (o + 1))
      intro y hy
      exact (invOutputsAux_mem_bounds idx rest (o + 1) y hy).1
    · rw [if_neg hs]
      exact ih (o + 1)

/-- The code's inverse scan over `selected_sources` equals the
`+1`-shift of the 0-based inverse mapping over the produced output
list, whenever the rows' `source` fields equal the scanned values. -/
theorem invOutputsAux_eq_inv0Aux (s : Nat) :
    ∀ (outs : List JtechOutputInfo) (sel : List Int),
      outs.map JtechOutputInfo.source = sel →
      ∀ o : Nat, invOutputsAux s o sel = (inv0Aux s o outs).map (· + 1) := by
  intro outs
  induction outs with
  | nil =>
    intro sel h o
    cases h
    simp [invOutputsAux, inv0Aux]
  | cons x rest ih =>
    intro sel h o
    cases h
    simp only [List.map_cons, invOutputsAux, inv0Aux]
    by_cases hx : x.source = (s : Int)
    · rw [if_pos hx, if_pos hx]
      simp [ih (rest.map JtechOutputInfo.source) rfl (o + 1)]
    · rw [if_neg hx, if_neg hx]
      exact ih (rest.map JtechOutputInfo.source) rfl (o + 1)

/-- Inverting a produced (`Some`) output list back to its row loop. -/
theorem handle_output_update_ok_inv (st : Statuses) (os : OutputStatusRec)
    (outs : List JtechOutputInfo) (ho : st.output = some os)
    (h : handle_output_update st = .ok (some outs)) :
    outputRowsAux os st.cec 0 os.output_names = .ok outs := by
  simp only [handle_output_update, ho] at h
  cases hn : os.output_names with
  | nil => simp only [hn] at h; simp at h
  | cons n rest =>
    simp only [hn] at h
    cases hr : outputRowsAux os st.cec 0 (n :: rest) with
    | error e => simp only [hr] at h; simp at h
    | ok rows =>
      simp only [hr, Except.ok.injEq, Option.some.injEq] at h
      rw [h]

/-- Inverting a produced (`Some`) source list back to its row loop. -/
theorem handle_source_update_ok_inv (st : Statuses)
    (srcs : List JtechSourceInfo)
    (h : handle_source_update st = .ok (some srcs)) :
    ∃ ss, st.source = some ss ∧
      sourceRowsAux ss st.cec st.output 0 ss.source_names = .ok srcs := by
  cases hs : st.source with
  | none => simp [handle_source_update, hs] at h
  | some ss =>
    refine ⟨ss, rfl, ?_⟩
    simp only [handle_source_update, hs] at h
    cases hn : ss.source_names with
    | nil => simp only [hn] at h; simp at h
    | cons n rest =>
      simp only [hn] at h
      cases hr : sourceRowsAux ss st.cec st.output 0 (n :: rest) with
      | error e => simp only [hr] at h; simp at h
      | ok rows =>
        simp only [hr, Except.ok.injEq, Option.some.injEq] at h
        rw [h]

/-- C3 counterexample: on the spec scenario the produced
`sources[0].outputs` is `[2]`, yet under the all-0-based reading the
round trip demands `inv0 outputs 0 = [1]`, and under the all-1-based
reading (source number 1 at array position 0) it demands
`inv1 outputs 1 = [1]` — the round trip fails under either consistent
convention. -/
theorem claim_C3_counterexample :
    (scenarioSources.map JtechSourceInfo.outputs).get? 0 = some [2] ∧
    inv0 scenarioOutputs 0 = [1] ∧
    inv1 scenarioOutputs 1 = [1] ∧
    ¬ ([2] = ([1] : List Nat)) := by
  decide

/-- C3 (amended): for every successful reconciliation whose fetched
`selected_sources` has the same length as the output-name list, the
derived `SourceInfo.outputs` of the source at 0-based position `j` is
exactly the `+1`-shift (1-based tagging) of the 0-based output
positions whose `source` field equals `j` — an off-by-one-convention
inverse mapping, not an index-convention-preserving round trip. -/
theorem claim_C3 (st : Statuses) (os : OutputStatusRec)
    (outs : List JtechOutputInfo) (srcs : List JtechSourceInfo)
    (ho : st.output = some os)
    (hlen : os.selected_sources.length = os.output_names.length)
    (hou : handle_output_update st = .ok (some outs))
    (hsu : handle_source_update st = .ok (some srcs)) :
    ∀ j src, srcs.get? j = some src →
      src.outputs = (inv0 outs j).map (· + 1) := by
  obtain ⟨ss, hss, hrows⟩ := handle_source_update_ok_inv st srcs hsu
  have hout := handle_output_update_ok_inv st os outs ho hou
  have hmap := outputRowsAux_ok os st.cec os.output_names 0 outs hout
  have hsel : outs.map JtechOutputInfo.source = os.selected_sources := by
    rw [hmap, List.drop_zero, ← hlen, List.take_length]
  have hsrc := (sourceRowsAux_ok ss st.cec st.output ss.source_names 0 srcs hrows).2
  intro j src hj
  obtain ⟨os', hos', houts⟩ := hsrc j src hj
  rw [ho, Option.some.injEq] at hos'
  subst hos'
  rw [houts]
  have := invOutputsAux_eq_inv0Aux j outs os.selected_sources hsel 0
  rw [Nat.zero_add, this]
  rfl

/-- C3 witness: the amended inverse relation evaluated at source
position 0 of the spec scenario. -/
theorem claim_C3_witness :
    (⟨[2], "Blu-ray", true, 0, false⟩ : JtechSourceInfo).outputs =
      (inv0 scenarioOutputs 0).map (· + 1) :=
  claim_C3 scenarioStatuses scenarioOutputStatus scenarioOutputs
    scenarioSources rfl rfl rfl rfl 0
    ⟨[2], "Blu-ray", true, 0, false⟩ (by decide)

/-- C4 counterexample: on the spec scenario (both produced lists
non-empty and same length as fetched), `outputs[1].source = 0`, which is
not a valid 1-based index into the two-element source list. -/
theorem claim_C4_counterexample :
    scenarioOutputs.length = scenarioOutputStatus.output_names.length ∧
    scenarioSources.length = scenarioSourceStatus.source_names.length ∧
    ¬ (scenarioOutputs = []) ∧ ¬ (scenarioSources = []) ∧
    scenarioOutputs.map JtechOutputInfo.source = [1, 0] ∧
    ¬ (∀ o ∈ scenarioOutputs, 1 ≤ o.source ∧
        o.source ≤ (scenarioSources.length : Int)) := by
  decide

/-- C4 (amended): the reconciliation copies each fetched
`selected_sources` value verbatim into `OutputInfo.source` and enforces
no range invariant; consequently the produced `source` values are valid
1-based indexes into the produced source list exactly when the fetched
values already were. -/
theorem claim_C4 (st : Statuses) (os : OutputStatusRec)
    (outs : List JtechOutputInfo) (srcs : List JtechSourceInfo)
    (ho : st.output = some os)
    (hou : handle_output_update st = .ok (some outs))
    (hsu : handle_source_update st = .ok (some srcs)) :
    outs.map JtechOutputInfo.source =
      os.selected_sources.take os.output_names.length ∧
    ((∀ v ∈ os.selected_sources, 1 ≤ v ∧ v ≤ (srcs.length : Int)) →
      ∀ o ∈ outs, 1 ≤ o.source ∧ o.source ≤ (srcs.length : Int)) := by
  have hout := handle_output_update_ok_inv st os outs ho hou
  have hmap := outputRowsAux_ok os st.cec os.output_names 0 outs hout
  rw [List.drop_zero] at hmap
  refine ⟨hmap, ?_⟩
  intro hv o hmemo
  have hmem : o.source ∈ outs.map JtechOutputInfo.source :=
    List.mem_map_of_mem _ hmemo
  rw [hmap] at hmem
  exact hv _ (List.take_subset _ _ hmem)

/-- C4 witness: the verbatim-copy fact and the range conclusion at the
valid-1-based concrete variant (`selected_sources = [2, 1]`, two
sources). -/
theorem claim_C4_witness :
    scenario2Outputs.map JtechOutputInfo.source =
      scenario2OutputStatus.selected_sources.take
        scenario2OutputStatus.output_names.length ∧
    (1 ≤ (2 : Int) ∧ (2 : Int) ≤ (scenario2Sources.length : Int)) :=
  ⟨(claim_C4 scenario2Statuses scenario2OutputStatus scenario2Outputs
      scenario2Sources rfl rfl rfl).1,
   (claim_C4 scenario2Statuses scenario2OutputStatus scenario2Outputs
      scenario2Sources rfl rfl rfl).2 (by decide)
      ⟨2, "TV1", "TV1 CAT", true, false, true, true, 0, true⟩ (by decide)⟩

/-- C10: every source list a successful reconciliation produces has
strictly increasing `outputs` lists whose elements lie between 1 and
the length of the fetched `selected_sources` array. -/
theorem claim_C10 (st : Statuses) (os : OutputStatusRec)
    (srcs : List JtechSourceInfo)
    (ho : st.output = some os)
    (hsu : handle_source_update st = .ok (some srcs)) :
    ∀ src ∈ srcs, src.outputs.Pairwise (· < ·) ∧
      ∀ x ∈ src.outputs, 1 ≤ x ∧ x ≤ os.selected_sources.length := by
  obtain ⟨ss, hss, hrows⟩ := handle_source_update_ok_inv st srcs hsu
  have hsrc := (sourceRowsAux_ok ss st.cec st.output ss.source_names 0 srcs hrows).2
  intro src hmem
  obtain ⟨j, hj⟩ := List.get?_of_mem hmem
  obtain ⟨os', hos', houts⟩ := hsrc j src hj
  rw [ho, Option.some.injEq] at hos'
  subst hos'
  constructor
  · rw [houts]
    exact invOutputsAux_pairwise _ _ 0
  · intro x hx
    rw [houts] at hx
    have := invOutputsAux_mem_bounds _ _ 0 x hx
    omega

/-- C10 witness: the bounds extracted for the concrete element `2` of
the first scenario source's `outputs`. -/
theorem claim_C10_witness :
    1 ≤ 2 ∧ 2 ≤ scenarioOutputStatus.selected_sources.length :=
  (claim_C10 scenarioStatuses scenarioOutputStatus scenarioSources rfl rfl
    ⟨[2], "Blu-ray", true, 0, false⟩ (by decide)).2 2 (by decide)

/-- C8 counterexample: after a first fully successful cycle publishes
`hostname = "matrix"`, a second cycle whose network fetch raised (all
else succeeding) publishes a combined record with no hostname at all —
the field does not keep its previous value. -/
theorem claim_C8_counterexample :
    cycle1.2 = none ∧
    cycle1.1.data.map CombinedData.hostname = some (some "matrix") ∧
    cycle2.2 = none ∧
    cycle2.1.data.map CombinedData.hostname = some none ∧
    ¬ (cycle2.1.data.map CombinedData.hostname = some (some "matrix")) := by
  decide

/-- C8 (amended): a successful cycle publishes a combined record rebuilt
from scratch from this cycle's fetches; a field whose owning fetch
failed is absent (`None`) in it — it does not keep the prior cycle's
value — while fields whose fetch succeeded carry the fresh values. -/
theorem claim_C8 (st : CoordState) (c : ConnectOutcome) (fr : FetchResults)
    (h : (async_update_data st c fr).2 = none) :
    (async_update_data st c fr).1.data =
      some (build_combined (fetch_status fr)) ∧
    (∀ s : Statuses,
      (s.status = none → (build_combined s).power = none ∧
        (build_combined s).model = none ∧ (build_combined s).version = none) ∧
      (∀ r, s.status = some r → (build_combined s).power = some r.power ∧
        (build_combined s).model = some r.model ∧
        (build_combined s).version = some r.version) ∧
      (s.network = none → (build_combined s).hostname = none ∧
        (build_combined s).ipaddress = none ∧
        (build_combined s).subnet = none ∧
        (build_combined s).gateway = none ∧
        (build_combined s).macaddress = none ∧
        (build_combined s).dhcp = none ∧
        (build_combined s).telnetport = none ∧
        (build_combined s).tcpport = none) ∧
      (∀ r, s.network = some r →
        (build_combined s).hostname = some r.hostname ∧
        (build_combined s).ipaddress = some r.ipaddress ∧
        (build_combined s).subnet = some r.subnet ∧
        (build_combined s).gateway = some r.gateway ∧
        (build_combined s).macaddress = some r.macaddress ∧
        (build_combined s).dhcp = some r.dhcp ∧
        (build_combined s).telnetport = some r.telnetport ∧
        (build_combined s).tcpport = some r.tcpport) ∧
      (s.system = none → (build_combined s).baudrate_index = none ∧
        (build_combined s).beep = none ∧ (build_combined s).lock = none ∧
        (build_combined s).mode = none) ∧
      (∀ r, s.system = some r →
        (build_combined s).baudrate_index = some r.baudrate_index ∧
        (build_combined s).beep = some r.beep ∧
        (build_combined s).lock = some r.lock ∧
        (build_combined s).mode = some r.mode) ∧
      (s.web_details = none → (build_combined s).title = none) ∧
      (∀ r, s.web_details = some r →
        (build_combined s).title = some r.title)) := by
  refine ⟨async_update_data_data_of_ok st c fr h, ?_⟩
  intro s
  rcases hst : s.status with _ | r1 <;> rcases hnw : s.network with _ | r2 <;>
    rcases hsy : s.system with _ | r3 <;>
      rcases hwd : s.web_details with _ | r4 <;>
        simp [build_combined, hst, hnw, hsy, hwd]

/-- C8 witness: the publication fact evaluated on the first concrete
cycle. -/
theorem claim_C8_witness :
    cycle1.1.data = some (build_combined (fetch_status scenarioFetch)) :=
  (claim_C8 initState .success scenarioFetch rfl).1

/-- C9 counterexample: starting from a fully populated published state,
a cycle whose output fetch raised (others succeeding with non-empty
source names) fails partway through reconciliation yet leaves a
partially updated coordinator: `outputs` was already overwritten (to
`None`) while `sources` and the combined record keep their previous
values. -/
theorem claim_C9_counterexample :
    (async_update_data prevState .success failFetch).2.isSome = true ∧
    (async_update_data prevState .success failFetch).1.outputs = none ∧
    ¬ (prevState.outputs = none) ∧
    (async_update_data prevState .success failFetch).1.sources =
      prevState.sources ∧
    (async_update_data prevState .success failFetch).1.data =
      prevState.data := by
  decide

/-- C9 (amended): a successful cycle replaces `outputs`, `sources` and
the published record together before returning, but a cycle is not
atomic on failure: if the output handler succeeded and the source
handler then raised, `outputs` keeps the new value while `sources` and
the published record keep the old ones (if the output handler itself
raised, nothing but `connected` changes). -/
theorem claim_C9 (st : CoordState) (fr : FetchResults) :
    (∀ e, handle_output_update (fetch_status fr) = .error e →
      async_update_data st .success fr =
        ({ st with connected := false },
         some (.updateFailed ERROR_FETCH_DATA_FAILED))) ∧
    (∀ v e, handle_output_update (fetch_status fr) = .ok v →
      handle_source_update (fetch_status fr) = .error e →
      async_update_data st .success fr =
        ({ st with outputs := v, connected := false },
         some (.updateFailed ERROR_FETCH_DATA_FAILED))) ∧
    (∀ v w, handle_output_update (fetch_status fr) = .ok v →
      handle_source_update (fetch_status fr) = .ok w →
      async_update_data st .success fr =
        ({ st with connected := true, outputs := v, sources := w,
                   data := some (build_combined (fetch_status fr)) },
         none)) := by
  refine ⟨?_, ?_, ?_⟩
  · intro e ho
    exact async_update_data_outputFail st fr e ho
  · intro v e ho hs
    exact async_update_data_sourceFail st fr v e ho hs
  · intro v w ho hs
    exact async_update_data_ok st fr v w ho hs

/-- C9 witness: the partial-update branch evaluated on the concrete
previous state and the concrete output-fetch failure. -/
theorem claim_C9_witness :
    async_update_data prevState .success failFetch =
      ({ prevState with outputs := none, connected := false },
       some (.updateFailed ERROR_FETCH_DATA_FAILED)) :=
  (claim_C9 prevState failFetch).2.1 none .attributeError rfl rfl

/-- C5: on connect, an authentication failure raises
`ConfigEntryAuthFailed(ERROR_AUTH_FAILED)`, a connection failure raises
`UpdateFailed(ERROR_CONNECT_FAILED)` (a distinct error), both leave
`connected = false`, both propagate unchanged out of the poll cycle, and
the next cycle's connect attempt runs again (setting `connected` on
success). -/
theorem claim_C5 (st : CoordState) (fr : FetchResults)
    (h : st.connected = false) :
    (client_connect st .authError).2 =
      some (.configEntryAuthFailed ERROR_AUTH_FAILED) ∧
    (client_connect st .authError).1.connected = false ∧
    (client_connect st .connectionError).2 =
      some (.updateFailed ERROR_CONNECT_FAILED) ∧
    (client_connect st .connectionError).1.connected = false ∧
    UpdateError.configEntryAuthFailed ERROR_AUTH_FAILED ≠
      UpdateError.updateFailed ERROR_CONNECT_FAILED ∧
    (async_update_data st .authError fr).2 =
      some (.configEntryAuthFailed ERROR_AUTH_FAILED) ∧
    (async_update_data st .connectionError fr).2 =
      some (.updateFailed ERROR_CONNECT_FAILED) ∧
    (client_connect (client_connect st .authError).1 .success).1.connected
      = true := by
  refine ⟨?_, ?_, ?_, ?_, ?_, ?_, ?_, ?_⟩ <;>
    simp [client_connect, async_update_data, h]

/-- C5 witness: the auth branch evaluated on the initial coordinator
state and the scenario fetch results. -/
theorem claim_C5_witness :
    (client_connect initState .authError).2 =
      some (.configEntryAuthFailed ERROR_AUTH_FAILED) :=
  (claim_C5 initState scenarioFetch rfl).1

/-- C7: each coordinator command method issues exactly the one
corresponding device-client call, returns that call's success boolean
unchanged, and never requests a refresh. -/
theorem claim_C7 (cl : JtechClient) (output source command : Nat) :
    (async_enable_output cl output =
       ([.set_output_stream output true], cl.set_output_stream output true) ∧
     ClientCall.request_refresh ∉ (async_enable_output cl output).1) ∧
    (async_enable_cat_output cl output =
       ([.set_output_cat_stream output true],
        cl.set_output_cat_stream output true) ∧
     ClientCall.request_refresh ∉ (async_enable_cat_output cl output).1) ∧
    (async_disable_output cl output =
       ([.set_output_stream output false], cl.set_output_stream output false) ∧
     ClientCall.request_refresh ∉ (async_disable_output cl output).1) ∧
    (async_disable_cat_output cl output =
       ([.set_output_cat_stream output false],
        cl.set_output_cat_stream output false) ∧
     ClientCall.request_refresh ∉ (async_disable_cat_output cl output).1) ∧
    (async_select_source cl output source =
       ([.set_video_source output source], cl.set_video_source output source) ∧
     ClientCall.request_refresh ∉ (async_select_source cl output source).1) ∧
    (async_send_cec_output cl output command =
       ([.send_cec_output output command], cl.send_cec_output output command) ∧
     ClientCall.request_refresh ∉ (async_send_cec_output cl output command).1) ∧
    (async_send_cec_source cl source command =
       ([.send_cec_source source command], cl.send_cec_source source command) ∧
     ClientCall.request_refresh ∉ (async_send_cec_source cl source command).1) ∧
    (async_power_on cl = ([.set_power true], cl.set_power true) ∧
     ClientCall.request_refresh ∉ (async_power_on cl).1) ∧
    (async_power_off cl = ([.set_power false], cl.set_power false) ∧
     ClientCall.request_refresh ∉ (async_power_off cl).1) := by
  refine ⟨⟨rfl, ?_⟩, ⟨rfl, ?_⟩, ⟨rfl, ?_⟩, ⟨rfl, ?_⟩, ⟨rfl, ?_⟩, ⟨rfl, ?_⟩,
    ⟨rfl, ?_⟩, ⟨rfl, ?_⟩, ⟨rfl, ?_⟩⟩ <;>
    simp [async_enable_output, async_enable_cat_output, async_disable_output,
      async_disable_cat_output, async_select_source, async_send_cec_output,
      async_send_cec_source, async_power_on, async_power_off]

end Jtech

namespace JtechAlt

/-- C6: in `_coordinator.py`'s update, a `JtechConnectionError` or
`JtechConnectionTimeout` from the connect step completes the cycle
normally (no exception) with `power = False` and `connected = False`. -/
theorem claim_C6 (st : AltState) (f : AltFetches)
    (hc : st.connected = false)
    (h : f.connect = some .connectionError ∨
         f.connect = some .connectionTimeout) :
    (alt_async_update_data st f).1.power = some false ∧
    (alt_async_update_data st f).1.connected = false ∧
    (alt_async_update_data st f).2 = none := by
  rcases h with h | h <;> simp [alt_async_update_data, hc, h]

/-- C6 witness: the connection-error tick evaluated on the alternate
coordinator's initial state. -/
theorem claim_C6_witness :
    (alt_async_update_data altInitState altConnFailFetches).1.power =
      some false :=
  (claim_C6 altInitState altConnFailFetches rfl (Or.inl rfl)).1

end JtechAlt
